import Mathlib

/-!
Verification of the test_books backend (FastAPI + SQLAlchemy + SQLite).

The development shallowly embeds the persistence state (tables users, items,
tags, item_tag), the service layer (src/service.py) and the route layer
(src/routers) as pure Lean functions over an explicit database state, and
proves or refutes the frozen claims about them.

Modelling notes, justified against the source:

- Integer ids, timestamps and string codepoints are Nat.  Timestamps are
  abstract ticks: the code only stores and compares them.
- SQL text semantics (LIKE patterns, lower(), BINARY collation) are embedded
  at the codepoint level via Char.toNat, which is faithful for the byte-wise
  comparisons SQLite performs on UTF-8 text.
- service.delete_model_by_id executes a bulk Core statement
  delete(model).where(model.id == id).  Per SQLAlchemy semantics a bulk
  delete does not traverse ORM relationships, so the
  cascade all, delete-orphan configured on User.items / User.tags never
  runs; and the engine is plain create_engine(sqlite:///...) with no
  PRAGMA foreign_keys=ON, so SQLite leaves both the user_id foreign keys
  (which declare no ondelete) and the declared ondelete CASCADE clauses of
  item_tag unenforced.  A bulk delete therefore removes rows of the target
  table only.
- FastAPI parameter binding: a handler argument of scalar type whose name
  matches a declared path parameter receives the path value; otherwise it
  becomes a required query parameter, and a request that omits it fails
  validation with status 422 before the handler body runs.  All three
  DELETE routes declare the path parameter id while their handler argument
  is user_id / item_id / tag_id.
-/

namespace TestBooks

/-- Row of the users table (models.User): id, unique email, display_name,
server-assigned created_at. -/
structure UserRow where
  id : Nat
  email : String
  display_name : String
  created_at : Nat
deriving Repr, DecidableEq

/-- Row of the items table (models.Item).  kind, status, priority are stored
as strings (the enum values); notes is nullable; updated_at is null until an
update occurs (no route ever updates an item row, so it stays null). -/
structure ItemRow where
  id : Nat
  user_id : Nat
  title : String
  kind : String
  status : String
  priority : String
  notes : Option String
  created_at : Nat
  updated_at : Option Nat
deriving Repr, DecidableEq

/-- Row of the tags table (models.Tag): id, owning user_id, name, with the
composite UNIQUE constraint (user_id, name). -/
structure TagRow where
  id : Nat
  user_id : Nat
  name : String
deriving Repr, DecidableEq

/-- The database: the four tables of models.py plus the sqlite_autoincrement
counters.  links holds the item_tag association rows as (item_id, tag_id)
pairs, the composite primary key. -/
structure DB where
  users : List UserRow
  items : List ItemRow
  tags : List TagRow
  links : List (Nat × Nat)
  nextUserId : Nat
  nextItemId : Nat
  nextTagId : Nat
deriving Repr, DecidableEq

/-- service.get_model_by_id specialized to User: first row with the id. -/
def userById (db : DB) (uid : Nat) : Option UserRow :=
  db.users.find? (fun u => u.id == uid)

/-- service.get_model_by_id specialized to Item. -/
def itemById (db : DB) (iid : Nat) : Option ItemRow :=
  db.items.find? (fun it => it.id == iid)

/-- service.get_model_by_id specialized to Tag. -/
def tagById (db : DB) (tid : Nat) : Option TagRow :=
  db.tags.find? (fun tg => tg.id == tid)

/-- service.delete_model_by_id specialized to User.  It executes the bulk
statement delete(User).where(User.id == id) and commits: only matching rows
of the users table are removed (no ORM cascade, no SQLite FK enforcement;
see the module comment). -/
def delete_user_by_id (db : DB) (uid : Nat) : DB :=
  { db with users := db.users.filter (fun u => !(u.id == uid)) }

/-- service.delete_model_by_id specialized to Item: removes matching rows of
the items table only (the ondelete CASCADE of item_tag is not enforced by
SQLite without PRAGMA foreign_keys=ON). -/
def delete_item_by_id (db : DB) (iid : Nat) : DB :=
  { db with items := db.items.filter (fun it => !(it.id == iid)) }

/-- service.delete_model_by_id specialized to Tag: removes matching rows of
the tags table only. -/
def delete_tag_by_id (db : DB) (tid : Nat) : DB :=
  { db with tags := db.tags.filter (fun tg => !(tg.id == tid)) }

/-- Membership of an (item_id, tag_id) pair in the item_tag table. -/
def linkMem (links : List (Nat × Nat)) (iid tid : Nat) : Bool :=
  links.any (fun l => l.1 == iid && l.2 == tid)

/-- The tags joined to an item through item_tag, as loaded by
joinedload(Item.tags): every tag row whose id is linked to the item. -/
def itemTagsOf (db : DB) (it : ItemRow) : List TagRow :=
  db.tags.filter (fun tg => linkMem db.links it.id tg.id)

/-- service.add_tag_to_item: insert(item_tag).values(item_id=item.id,
tag_id=tag.id), then commit.  The composite primary key makes a duplicate
pair an IntegrityError, and the failed transaction leaves the table
unchanged. -/
def add_tag_to_item (db : DB) (it : ItemRow) (tg : TagRow) : Except Unit DB :=
  if linkMem db.links it.id tg.id then .error ()
  else .ok { db with links := db.links ++ [(it.id, tg.id)] }

/-- service.remove_tag_from_item: delete(item_tag).where(item_id == item.id
and tag_id == tag.id), then commit.  Deleting an absent pair is a no-op. -/
def remove_tag_from_item (db : DB) (it : ItemRow) (tg : TagRow) : DB :=
  { db with links := db.links.filter (fun l => !(l.1 == it.id && l.2 == tg.id)) }

/-! ### Text semantics: lower(), LIKE, and BINARY comparison

The title filter is Item.title.ilike(f"%{s}%"), which SQLAlchemy renders as
lower(title) LIKE lower(pattern).  SQLite lower() folds ASCII letters only,
and in a LIKE pattern the percent sign (codepoint 37) matches any sequence
of characters while the underscore (codepoint 95) matches any single
character; other characters match themselves.  Strings are embedded as
their codepoint lists. -/

/-- The codepoints of a string. -/
def strCodes (s : String) : List Nat :=
  s.data.map Char.toNat

/-- SQLite lower() on one codepoint: ASCII uppercase letters are shifted to
lowercase, everything else is unchanged. -/
def lowerCode (n : Nat) : Nat :=
  if 65 ≤ n ∧ n ≤ 90 then n + 32 else n

/-- SQLite lower() on a string of codepoints. -/
def lowerCodes (l : List Nat) : List Nat :=
  l.map lowerCode

/-- All suffixes of a list, longest first, including the list itself and the
empty suffix. -/
def suffixesOf : List Nat → List (List Nat)
  | [] => [[]]
  | c :: cs => (c :: cs) :: suffixesOf cs

/-- SQL LIKE matching of a whole string against a pattern: 37 (percent)
matches any sequence, 95 (underscore) matches any one codepoint, any other
pattern codepoint matches exactly itself. -/
def likeMatch : List Nat → List Nat → Bool
  | [], cs => cs.isEmpty
  | p :: ps, cs =>
    if p == 37 then (suffixesOf cs).any (fun t => likeMatch ps t)
    else
      match cs with
      | [] => false
      | c :: cs2 => (p == 95 || p == c) && likeMatch ps cs2

/-- The title filter of service.get_filtered_items:
Item.title.ilike(f"%{s}%"), i.e. lower(title) LIKE lower('%' + s + '%'). -/
def titleFilterPasses (sub title : String) : Bool :=
  likeMatch (lowerCodes (strCodes ("%" ++ sub ++ "%"))) (lowerCodes (strCodes title))

/-- s is an initial segment of cs (helper for plain substring containment). -/
def headMatches : List Nat → List Nat → Bool
  | [], _ => true
  | _ :: _, [] => false
  | a :: s, c :: cs => a == c && headMatches s cs

/-- s occurs as a contiguous sublist of cs. -/
def containsSub (s : List Nat) : List Nat → Bool
  | [] => s.isEmpty
  | c :: cs => headMatches s (c :: cs) || containsSub s cs

/-- Case-insensitive substring containment, the reading of the title filter
that claim C9 asserts: the lowered substring occurs in the lowered title. -/
def containsIgnoreCase (sub title : String) : Bool :=
  containsSub (lowerCodes (strCodes sub)) (lowerCodes (strCodes title))

/-- True when the substring contains neither LIKE wildcard (percent 37,
underscore 95). -/
def noWildcards (sub : String) : Bool :=
  (strCodes sub).all (fun n => !(n == 37) && !(n == 95))

/-! ### Filtered item search (service.get_filtered_items) -/

/-- schema.ItemSearchParams with its declared defaults.  limit and offset
are Python ints (Int); the enum-typed fields arrive in the service function
as their string values, and the service treats sort_field and sort_order as
plain strings. -/
structure SearchParams where
  status : Option String := none
  kind : Option String := none
  priority : Option String := none
  tag_names : Option (List String) := none
  title_substring : Option String := none
  created_from : Option Nat := none
  created_to : Option Nat := none
  limit : Int := 20
  offset : Int := 0
  sort_field : String := "created_at"
  sort_order : String := "desc"
deriving Repr, DecidableEq

/-- Python truthiness of an optional string (if status: ...): present and
non-empty. -/
def truthyStr : Option String → Bool
  | none => false
  | some s => !(s == "")

/-- Python truthiness of an optional list (if tag_names: ...): present and
non-empty. -/
def truthyList : Option (List String) → Bool
  | none => false
  | some l => !l.isEmpty

/-- The tag-name condition produced by stmt.join(Item.tags) plus
Tag.name.in_(tag_names): the item has at least one associated tag whose
name is in the list. -/
def hasAnyTagNamed (db : DB) (names : List String) (it : ItemRow) : Bool :=
  db.tags.any (fun tg => linkMem db.links it.id tg.id && names.any (fun n => n == tg.name))

/-- The WHERE clause of get_filtered_items: the and_ of every filter the
code appends (each guarded by Python truthiness of its parameter). -/
def itemMatches (db : DB) (p : SearchParams) (it : ItemRow) : Bool :=
  (if truthyStr p.status then it.status == p.status.getD "" else true) &&
  (if truthyStr p.kind then it.kind == p.kind.getD "" else true) &&
  (if truthyStr p.priority then it.priority == p.priority.getD "" else true) &&
  (if truthyStr p.title_substring then titleFilterPasses (p.title_substring.getD "") it.title else true) &&
  (match p.created_from with | none => true | some t => t ≤ it.created_at) &&
  (match p.created_to with | none => true | some t => it.created_at ≤ t) &&
  (if truthyList p.tag_names then hasAnyTagNamed db (p.tag_names.getD []) it else true)

/-- Ascending comparison on the nullable updated_at column: SQL NULLs sort
before every value in ascending order. -/
def optNatLe : Option Nat → Option Nat → Bool
  | none, _ => true
  | some _, none => false
  | some a, some b => a ≤ b

/-- Lexicographic BINARY comparison of codepoint lists, the SQLite TEXT
ordering used when sorting by the priority column. -/
def natListLe : List Nat → List Nat → Bool
  | [], _ => true
  | _ :: _, [] => false
  | a :: as, b :: bs => a < b || (a == b && natListLe as bs)

/-- The sort_col_map lookup of get_filtered_items with its .get fallback:
created_at, updated_at and priority are bound to their columns, anything
else falls back to Item.created_at. -/
def itemColLe (sort_field : String) (a b : ItemRow) : Bool :=
  if sort_field == "created_at" then a.created_at ≤ b.created_at
  else if sort_field == "updated_at" then optNatLe a.updated_at b.updated_at
  else if sort_field == "priority" then natListLe (strCodes a.priority) (strCodes b.priority)
  else a.created_at ≤ b.created_at

/-- The test sort_order.lower() == "desc" of get_filtered_items. -/
def sortOrderIsDesc (sort_order : String) : Bool :=
  lowerCodes (strCodes sort_order) == strCodes "desc"

/-- The ORDER BY direction of get_filtered_items: desc(sort_col) when
sort_order.lower() == "desc", asc(sort_col) otherwise.  SQLite DESC is the
exact reverse of ASC (NULLs last under DESC). -/
def itemOrderLe (sort_field sort_order : String) (a b : ItemRow) : Bool :=
  if sortOrderIsDesc sort_order then itemColLe sort_field b a
  else itemColLe sort_field a b

/-- SQL LIMIT/OFFSET application (stmt.limit(limit).offset(offset) renders
LIMIT ? OFFSET ?): skip offset rows, then take limit rows.  SQLite treats a
negative OFFSET as zero and a negative LIMIT as no bound. -/
def sqlWindow (lim off : Int) (l : List α) : List α :=
  let dropped := l.drop off.toNat
  if lim < 0 then dropped else dropped.take lim.toNat

/-- The row set of get_filtered_items before ORDER BY: the WHERE clause
applied to the items table, deduplicated by SELECT DISTINCT (the join used
for the tag filter can only repeat item rows, which the existential
formulation of hasAnyTagNamed already collapses; DISTINCT also guards the
dedup, mirrored by List.dedup). -/
def searchMatching (db : DB) (p : SearchParams) : List ItemRow :=
  (db.items.filter (itemMatches db p)).dedup

/-- The matching rows sorted by the ORDER BY of get_filtered_items.  SQL
leaves the relative order of ties unspecified; a stable insertion sort is
one compliant realization. -/
def searchSorted (db : DB) (p : SearchParams) : List ItemRow :=
  List.insertionSort (fun a b => itemOrderLe p.sort_field p.sort_order a b = true)
    (searchMatching db p)

/-- service.get_filtered_items: WHERE, DISTINCT, ORDER BY, LIMIT/OFFSET,
then joinedload(Item.tags) attaches the full tag list of each returned
item (SQLAlchemy applies the limit to the item rows, wrapping the query in
a subquery before the eager-load join). -/
def get_filtered_items (db : DB) (p : SearchParams) : List (ItemRow × List TagRow) :=
  (sqlWindow p.limit p.offset (searchSorted db p)).map (fun it => (it, itemTagsOf db it))

/-! ### Inserts and the seed populator -/

/-- INSERT into users with the UNIQUE(email) constraint. -/
def insertUserRow (db : DB) (email name : String) (now : Nat) : Except Unit DB :=
  if db.users.any (fun u => u.email == email) then .error ()
  else .ok { db with
    users := db.users ++ [⟨db.nextUserId, email, name, now⟩],
    nextUserId := db.nextUserId + 1 }

/-- INSERT into tags with the UNIQUE(user_id, name) constraint. -/
def insertTagRow (db : DB) (uid : Nat) (name : String) : Except Unit DB :=
  if db.tags.any (fun t => t.user_id == uid && t.name == name) then .error ()
  else .ok { db with
    tags := db.tags ++ [⟨db.nextTagId, uid, name⟩],
    nextTagId := db.nextTagId + 1 }

/-- INSERT into items (no uniqueness constraint beyond the primary key). -/
def insertItemRow (db : DB) (uid : Nat) (title kind status priority : String)
    (notes : Option String) (now : Nat) : DB :=
  { db with
    items := db.items ++ [⟨db.nextItemId, uid, title, kind, status, priority, notes, now, none⟩],
    nextItemId := db.nextItemId + 1 }

/-- service.create_model specialized to Tag, as called by the create-tag
route: builds Tag(name=..., user_id=user_id) and commits; a duplicate
(user_id, name) raises IntegrityError and persists nothing. -/
def create_tag_model (db : DB) (uid : Nat) (name : String) : Except Unit DB :=
  insertTagRow db uid name

/-- service.create_seed_data.  Three commits in one session: both users
(fixed emails and names), then the three tags, then the three items
together with their item_tag rows (item1 gets urgent and work, item2 work,
item3 personal; all items kind=book, status=reading, priority=high with the
fixed titles and notes).  A failed commit raises IntegrityError and
persists nothing of that commit; on the repeated emails the very first
commit fails, so nothing at all is persisted.  now stands for the
utcnow()/server clock readings of the call. -/
def create_seed_data (db : DB) (now : Nat) : Except Unit DB := do
  let u1 := db.nextUserId
  let u2 := db.nextUserId + 1
  let db ← insertUserRow db "alice@example.com" "Alice" now
  let db ← insertUserRow db "bob@example.com" "Bob" now
  let t1 := db.nextTagId
  let t2 := db.nextTagId + 1
  let t3 := db.nextTagId + 2
  let db ← insertTagRow db u1 "urgent"
  let db ← insertTagRow db u1 "work"
  let db ← insertTagRow db u2 "personal"
  let i1 := db.nextItemId
  let i2 := db.nextItemId + 1
  let i3 := db.nextItemId + 2
  let db := insertItemRow db u1 "Finish report" "book" "reading" "high" (some "Due next week") now
  let db := insertItemRow db u1 "Buy groceries" "book" "reading" "high" (some "Milk, Bread, Eggs") now
  let db := insertItemRow db u2 "Call mom" "book" "reading" "high" (some "Sunday evening") now
  return { db with links := db.links ++ [(i1, t1), (i1, t2), (i2, t2), (i3, t3)] }

/-! ### Route layer -/

/-- The outcome of a request: a success body with its status code, or an
HTTPException with status code and detail message. -/
inductive Resp (α : Type) where
  | ok (statusCode : Nat) (body : α)
  | err (statusCode : Nat) (detail : String)
deriving Repr, DecidableEq

/-- Query-string lookup for an int-typed parameter. -/
def lookupQuery (q : List (String × Nat)) (key : String) : Option Nat :=
  match q.find? (fun kv => kv.1 == key) with
  | none => none
  | some kv => some kv.2

/-- FastAPI binding of one int-typed handler argument: the argument receives
the path value only when its name equals the declared path parameter name;
otherwise it is a required query parameter, absent meaning a 422 validation
failure. -/
def bindIntArg (pathName : String) (pathVal : Nat) (argName : String)
    (query : List (String × Nat)) : Option Nat :=
  if argName == pathName then some pathVal else lookupQuery query argName

/-- user_router.get_user_by_id (GET /users/\x7buser_id\x7d). -/
def get_user_route (db : DB) (uid : Nat) : Resp UserRow :=
  match userById db uid with
  | none => .err 404 "User not found"
  | some u => .ok 200 u

/-- item_router.get_item_by_id (GET /items/\x7bitem_id\x7d), tags eagerly
loaded. -/
def get_item_route (db : DB) (iid : Nat) : Resp (ItemRow × List TagRow) :=
  match itemById db iid with
  | none => .err 404 "Item not found"
  | some it => .ok 200 (it, itemTagsOf db it)

/-- tag_router.get_tag_by_id (GET /tags/\x7btag_id\x7d). -/
def get_tag_route (db : DB) (tid : Nat) : Resp TagRow :=
  match tagById db tid with
  | none => .err 404 "Tag not found"
  | some tg => .ok 200 tg

/-- tag_router.create_tag (POST /tags/user/\x7buser_id\x7d): existence check
on the user, then create_model; IntegrityError becomes 400 Tag already
exists; on success the route echoes the input schema. -/
def create_tag_route (db : DB) (uid : Nat) (name : String) : Resp String × DB :=
  match userById db uid with
  | none => (.err 404 "User not found", db)
  | some _ =>
    match create_tag_model db uid name with
    | .error _ => (.err 400 "Tag already exists", db)
    | .ok db2 => (.ok 200 name, db2)

/-- tag_router.link_tag_item (POST /tags/link/tag/\x7btag_id\x7d/item/\x7bitem_id\x7d):
checks tag then item existence (404 with the entity message), then inserts
the association pair; a duplicate pair raises IntegrityError, mapped to 400
Item already exists; on success the item is refetched with its tags.  The
success refetch cannot miss (linking does not remove the item); the err 500
arm is the unreachable response-validation fallback. -/
def link_tag_item (db : DB) (tid iid : Nat) : Resp (ItemRow × List TagRow) × DB :=
  match tagById db tid with
  | none => (.err 404 "Tag not found", db)
  | some tg =>
    match itemById db iid with
    | none => (.err 404 "Item not found", db)
    | some it =>
      match add_tag_to_item db it tg with
      | .error _ => (.err 400 "Item already exists", db)
      | .ok db2 =>
        match itemById db2 iid with
        | none => (.err 500 "response validation failed", db2)
        | some it2 => (.ok 200 (it2, itemTagsOf db2 it2), db2)

/-- tag_router.unlink_tag_item (POST /tags/unlink/tag/\x7btag_id\x7d/item/\x7bitem_id\x7d). -/
def unlink_tag_item (db : DB) (tid iid : Nat) : Resp (ItemRow × List TagRow) × DB :=
  match tagById db tid with
  | none => (.err 404 "Tag not found", db)
  | some tg =>
    match itemById db iid with
    | none => (.err 404 "Item not found", db)
    | some it =>
      let db2 := remove_tag_from_item db it tg
      match itemById db2 iid with
      | none => (.err 500 "response validation failed", db2)
      | some it2 => (.ok 200 (it2, itemTagsOf db2 it2), db2)

/-- user_router.delete_user: the decorator declares DELETE /users/\x7bid\x7d but
the handler signature is delete_user(user_id: int, response: Response), so
FastAPI binds user_id as a required query parameter; when it is present the
handler deletes that id and sets 204, and any exception would become a 400
(none can arise in this pure model). -/
def delete_user_route (db : DB) (pathVal : Nat) (query : List (String × Nat)) :
    Resp Unit × DB :=
  match bindIntArg "id" pathVal "user_id" query with
  | none => (.err 422 "Field required", db)
  | some uid => (.ok 204 (), delete_user_by_id db uid)

/-- item_router.delete_item: decorator DELETE /items/\x7bid\x7d, handler
argument item_id, same binding as delete_user_route. -/
def delete_item_route (db : DB) (pathVal : Nat) (query : List (String × Nat)) :
    Resp Unit × DB :=
  match bindIntArg "id" pathVal "item_id" query with
  | none => (.err 422 "Field required", db)
  | some iid => (.ok 204 (), delete_item_by_id db iid)

/-- tag_router.delete_tag: decorator DELETE /tags/\x7bid\x7d, handler argument
tag_id, same binding as delete_user_route. -/
def delete_tag_route (db : DB) (pathVal : Nat) (query : List (String × Nat)) :
    Resp Unit × DB :=
  match bindIntArg "id" pathVal "tag_id" query with
  | none => (.err 422 "Field required", db)
  | some tid => (.ok 204 (), delete_tag_by_id db tid)

/-- router_for_test.create_data_for_tests (POST /test/): runs the seed
populator, answering 200 with the literal string success, or 400 Item
already exists on an IntegrityError, which leaves the store as it was. -/
def create_data_for_tests (db : DB) (now : Nat) : Resp String × DB :=
  match create_seed_data db now with
  | .ok db2 => (.ok 200 "success", db2)
  | .error _ => (.err 400 "Item already exists", db)

/-! ### Concrete fixtures used by individual claims -/

/-- Store with one user who owns one item and one tag, the item and tag
linked through item_tag. -/
def c1DB : DB :=
  ⟨[⟨1, "u@example.com", "U", 0⟩],
   [⟨1, 1, "t", "book", "reading", "high", none, 0, none⟩],
   [⟨1, 1, "work"⟩],
   [(1, 1)], 2, 2, 2⟩

/-- Store with one user, one item and one tag, for the DELETE routes. -/
def c2DB : DB :=
  ⟨[⟨1, "a@example.com", "A", 0⟩],
   [⟨1, 1, "t", "book", "reading", "high", none, 0, none⟩],
   [⟨1, 1, "n"⟩], [], 2, 2, 2⟩

/-- The empty database right after table creation. -/
def emptyDB : DB := ⟨[], [], [], [], 1, 1, 1⟩

/-- The store produced by one run of the seed populator on the empty
database, all clock readings being t. -/
def seededDB (t : Nat) : DB :=
  ⟨[⟨1, "alice@example.com", "Alice", t⟩, ⟨2, "bob@example.com", "Bob", t⟩],
   [⟨1, 1, "Finish report", "book", "reading", "high", some "Due next week", t, none⟩,
    ⟨2, 1, "Buy groceries", "book", "reading", "high", some "Milk, Bread, Eggs", t, none⟩,
    ⟨3, 2, "Call mom", "book", "reading", "high", some "Sunday evening", t, none⟩],
   [⟨1, 1, "urgent"⟩, ⟨2, 1, "work"⟩, ⟨3, 2, "personal"⟩],
   [(1, 1), (1, 2), (2, 2), (3, 3)], 3, 4, 4⟩

/-- Five items with strictly increasing creation timestamps. -/
def fiveDB : DB :=
  ⟨[⟨1, "a@example.com", "A", 0⟩],
   [⟨1, 1, "i1", "book", "reading", "high", none, 1, none⟩,
    ⟨2, 1, "i2", "book", "reading", "high", none, 2, none⟩,
    ⟨3, 1, "i3", "book", "reading", "high", none, 3, none⟩,
    ⟨4, 1, "i4", "book", "reading", "high", none, 4, none⟩,
    ⟨5, 1, "i5", "book", "reading", "high", none, 5, none⟩],
   [], [], 2, 6, 1⟩

/-- Search parameters limit 2, offset 1, default sort (created_at desc). -/
def c3Params : SearchParams := { limit := 2, offset := 1 }

/-- Item 1 tagged urgent and work, item 2 tagged work, item 3 tagged
personal (the fixture graph of testable property 7). -/
def c4DB : DB :=
  ⟨[⟨1, "a@example.com", "A", 0⟩],
   [⟨1, 1, "i1", "book", "reading", "high", none, 1, none⟩,
    ⟨2, 1, "i2", "book", "reading", "high", none, 2, none⟩,
    ⟨3, 1, "i3", "book", "reading", "high", none, 3, none⟩],
   [⟨1, 1, "urgent"⟩, ⟨2, 1, "work"⟩, ⟨3, 1, "personal"⟩],
   [(1, 1), (1, 2), (2, 2), (3, 3)], 2, 4, 4⟩

/-- Search with the any-of tag filter of testable property 7. -/
def c4Params : SearchParams := { tag_names := some ["urgent", "personal"] }

/-- Two users for the tag-uniqueness scenario. -/
def c6DB : DB :=
  ⟨[⟨1, "a@example.com", "A", 0⟩, ⟨2, "b@example.com", "B", 0⟩], [], [], [], 3, 1, 1⟩

/-- One user with one unlinked item and tag, for link/unlink scenarios. -/
def c7DB : DB :=
  ⟨[⟨1, "a@example.com", "A", 0⟩],
   [⟨1, 1, "t", "book", "reading", "high", none, 0, none⟩],
   [⟨1, 1, "n"⟩], [], 2, 2, 2⟩

/-- c7DB with its item 1 and tag 1 linked. -/
def c7DBL : DB :=
  ⟨[⟨1, "a@example.com", "A", 0⟩],
   [⟨1, 1, "t", "book", "reading", "high", none, 0, none⟩],
   [⟨1, 1, "n"⟩], [(1, 1)], 2, 2, 2⟩

/-- Store holding only one tag, so item ids are all absent. -/
def c8DB : DB := ⟨[], [], [⟨1, 1, "n"⟩], [], 1, 1, 2⟩

/-- A store with a single item titled Finish Report. -/
def c9DB : DB :=
  ⟨[⟨1, "a@example.com", "A", 0⟩],
   [⟨1, 1, "Finish Report", "book", "reading", "high", none, 1, none⟩],
   [], [], 2, 2, 1⟩

/-- A store with a single item titled abc, on which the underscore wildcard
of LIKE is observable. -/
def c9badDB : DB :=
  ⟨[⟨1, "a@example.com", "A", 0⟩],
   [⟨1, 1, "abc", "book", "reading", "high", none, 1, none⟩],
   [], [], 2, 2, 1⟩

/-- Concrete item row for the frame-condition witness. -/
def c10it : ItemRow := ⟨1, 1, "t", "book", "reading", "high", none, 0, none⟩

/-- Concrete tag row for the frame-condition witness. -/
def c10tg : TagRow := ⟨2, 1, "n"⟩

/-- Store already holding one unrelated association pair (7, 8). -/
def c10DB : DB := ⟨[], [], [], [(7, 8)], 1, 1, 1⟩

/-- The store c10DB after linking c10it with c10tg. -/
def c10DB2 : DB := ⟨[], [], [], [(7, 8), (1, 2)], 1, 1, 1⟩

/-! ## Theorems -/

/-- A table none of whose rows matches the deleted pair is unchanged by the
bulk delete of remove_tag_from_item. -/
theorem filter_not_pair_eq_self (links : List (Nat × Nat)) (i t : Nat)
    (h : linkMem links i t = false) :
    links.filter (fun l => !(l.1 == i && l.2 == t)) = links := by
  apply List.filter_eq_self.mpr
  intro a ha
  unfold linkMem at h
  rw [List.any_eq_false] at h
  cases hv : (a.1 == i && a.2 == t) with
  | false => simp [hv]
  | true => exact absurd hv (h a ha)

/-- Claim C1 (evidence of the code bug): with user 1 owning item 1 and tag 1
linked by (1, 1), the delete-user service call removes only the users row:
the user is gone, but fetch-by-id still returns the item and the tag, and
the association row survives, contradicting the claimed cascade. -/
theorem c1_delete_user_leaves_orphans :
    userById (delete_user_by_id c1DB 1) 1 = none ∧
    itemById (delete_user_by_id c1DB 1) 1 =
      some ⟨1, 1, "t", "book", "reading", "high", none, 0, none⟩ ∧
    tagById (delete_user_by_id c1DB 1) 1 = some ⟨1, 1, "work"⟩ ∧
    (delete_user_by_id c1DB 1).links = [(1, 1)] := by
  decide

/-- Claim C2 (evidence of the code bug): each DELETE route binds its id from
a required query parameter, not from the declared path parameter id; a plain
DELETE with only the path id fails validation with 422 and deletes nothing,
and when the query parameter is supplied the path value is ignored (path 5,
query user_id=1 deletes user 1). -/
theorem c2_delete_routes_bind_query_not_path :
    delete_user_route c2DB 1 [] = (.err 422 "Field required", c2DB) ∧
    delete_item_route c2DB 1 [] = (.err 422 "Field required", c2DB) ∧
    delete_tag_route c2DB 1 [] = (.err 422 "Field required", c2DB) ∧
    delete_user_route c2DB 5 [("user_id", 1)] =
      (.ok 204 (), ⟨[], c2DB.items, c2DB.tags, [], 2, 2, 2⟩) ∧
    delete_item_route c2DB 5 [("item_id", 1)] =
      (.ok 204 (), ⟨c2DB.users, [], c2DB.tags, [], 2, 2, 2⟩) := by
  decide

/-- Claim C5: on the empty database the seed route creates exactly the two
users, three tags, three items and four association rows of the fixture and
answers 200 success; run again on the seeded store it answers 400 Item
already exists (the first commit fails on the duplicate emails) and adds
nothing. -/
theorem c5_seed_then_conflict (t t2 : Nat) :
    create_data_for_tests emptyDB t = (.ok 200 "success", seededDB t) ∧
    create_data_for_tests (seededDB t) t2 = (.err 400 "Item already exists", seededDB t) := by
  constructor
  · rfl
  · rfl

/-- Witness for c5_seed_then_conflict at clock readings 0 and 1. -/
theorem c5_seed_then_conflict_witness :
    create_data_for_tests emptyDB 0 = (.ok 200 "success", seededDB 0) ∧
    create_data_for_tests (seededDB 0) 1 = (.err 400 "Item already exists", seededDB 0) :=
  c5_seed_then_conflict 0 1

/-- Claim C8: fetching an absent item answers 404 Item not found, fetching
an absent user answers 404 User not found, and linking an existing tag to an
absent item answers 404 Item not found leaving the store (in particular the
association table) unchanged. -/
theorem c8_not_found_contract (db : DB) (iid uid tid : Nat) (tg : TagRow) :
    (itemById db iid = none → get_item_route db iid = .err 404 "Item not found") ∧
    (userById db uid = none → get_user_route db uid = .err 404 "User not found") ∧
    (tagById db tid = some tg → itemById db iid = none →
      link_tag_item db tid iid = (.err 404 "Item not found", db)) := by
  refine ⟨fun h => ?_, fun h => ?_, fun h1 h2 => ?_⟩
  · simp [get_item_route, h]
  · simp [get_user_route, h]
  · simp [link_tag_item, h1, h2]

/-- Witness for c8_not_found_contract on c8DB (tag 1 exists, item 1 and
user 1 do not). -/
theorem c8_not_found_contract_witness :
    get_item_route c8DB 1 = .err 404 "Item not found" ∧
    get_user_route c8DB 1 = .err 404 "User not found" ∧
    link_tag_item c8DB 1 1 = (.err 404 "Item not found", c8DB) := by
  have h := c8_not_found_contract c8DB 1 1 1 ⟨1, 1, "n"⟩
  exact ⟨h.1 (by decide), h.2.1 (by decide), h.2.2 (by decide) (by decide)⟩

/-- Claim C10: linking touches nothing but the inserted (item id, tag id)
pair — users, items, tags, the id counters and every other association pair
are unchanged — and unlinking removes exactly that pair, likewise leaving
every other row unchanged. -/
theorem c10_link_unlink_frame (db : DB) (it : ItemRow) (tg : TagRow) :
    (∀ db2, add_tag_to_item db it tg = .ok db2 →
      db2.users = db.users ∧ db2.items = db.items ∧ db2.tags = db.tags ∧
      db2.nextUserId = db.nextUserId ∧ db2.nextItemId = db.nextItemId ∧
      db2.nextTagId = db.nextTagId ∧
      (it.id, tg.id) ∈ db2.links ∧
      (∀ p : Nat × Nat, p ≠ (it.id, tg.id) → (p ∈ db2.links ↔ p ∈ db.links))) ∧
    ((remove_tag_from_item db it tg).users = db.users ∧
      (remove_tag_from_item db it tg).items = db.items ∧
      (remove_tag_from_item db it tg).tags = db.tags ∧
      (remove_tag_from_item db it tg).nextUserId = db.nextUserId ∧
      (remove_tag_from_item db it tg).nextItemId = db.nextItemId ∧
      (remove_tag_from_item db it tg).nextTagId = db.nextTagId ∧
      (it.id, tg.id) ∉ (remove_tag_from_item db it tg).links ∧
      (∀ p : Nat × Nat, p ≠ (it.id, tg.id) →
        (p ∈ (remove_tag_from_item db it tg).links ↔ p ∈ db.links))) := by
  constructor
  · intro db2 h
    unfold add_tag_to_item at h
    split at h
    · simp at h
    · injection h with h2
      subst h2
      refine ⟨rfl, rfl, rfl, rfl, rfl, rfl, by simp, ?_⟩
      intro p hp
      simp [List.mem_append, hp]
  · refine ⟨rfl, rfl, rfl, rfl, rfl, rfl, ?_, ?_⟩
    · simp [remove_tag_from_item, List.mem_filter]
    · intro p hp
      have hb : (p.1 == it.id && p.2 == tg.id) = false := by
        rcases p with ⟨x, y⟩
        simp only [ne_eq, Prod.mk.injEq, not_and] at hp
        by_cases hx : x = it.id
        · subst hx
          simp [hp rfl]
        · simp [hx]
      simp only [remove_tag_from_item]
      constructor
      · intro hmem
        exact (List.mem_filter.mp hmem).1
      · intro hmem
        exact List.mem_filter.mpr ⟨hmem, by simp [hb]⟩

/-- Witness for c10_link_unlink_frame: linking (1, 2) into c10DB leaves the
unrelated pair (7, 8) and all tables as they were, and unlinking it from
c10DB2 removes exactly it. -/
theorem c10_link_unlink_frame_witness :
    ((c10it.id, c10tg.id) ∈ c10DB2.links ∧
      ((7, 8) ∈ c10DB2.links ↔ (7, 8) ∈ c10DB.links)) ∧
    ((c10it.id, c10tg.id) ∉ (remove_tag_from_item c10DB2 c10it c10tg).links ∧
      ((7, 8) ∈ (remove_tag_from_item c10DB2 c10it c10tg).links ↔ (7, 8) ∈ c10DB2.links)) := by
  have h1 := (c10_link_unlink_frame c10DB c10it c10tg).1 c10DB2 (by rfl)
  have h2 := (c10_link_unlink_frame c10DB2 c10it c10tg).2
  exact ⟨⟨h1.2.2.2.2.2.2.1, h1.2.2.2.2.2.2.2 (7, 8) (by decide)⟩,
         ⟨h2.2.2.2.2.2.2.1, h2.2.2.2.2.2.2.2 (7, 8) (by decide)⟩⟩

/-- Claim C6: creating tag N for user A succeeds, creating tag N for a
different user B succeeds, and a second tag N for A hits the
UNIQUE(user_id, name) constraint: the route answers 400 Tag already exists
and the store, in particular the existing tag, is unchanged. -/
theorem c6_tag_name_unique_per_user (db : DB) (A B : Nat) (N : String)
    (uA uB : UserRow)
    (hA : userById db A = some uA) (hB : userById db B = some uB) (hAB : A ≠ B)
    (hNA : db.tags.any (fun t => t.user_id == A && t.name == N) = false)
    (hNB : db.tags.any (fun t => t.user_id == B && t.name == N) = false) :
    (create_tag_route db A N).1 = .ok 200 N ∧
    (create_tag_route (create_tag_route db A N).2 B N).1 = .ok 200 N ∧
    create_tag_route (create_tag_route (create_tag_route db A N).2 B N).2 A N =
      (.err 400 "Tag already exists",
       (create_tag_route (create_tag_route db A N).2 B N).2) ∧
    (create_tag_route (create_tag_route db A N).2 B N).2.tags =
      db.tags ++ [⟨db.nextTagId, A, N⟩, ⟨db.nextTagId + 1, B, N⟩] := by
  have hABf : (A == B) = false := by simp [hAB]
  have h1 : create_tag_route db A N =
      (.ok 200 N, { db with tags := db.tags ++ [⟨db.nextTagId, A, N⟩],
                            nextTagId := db.nextTagId + 1 }) := by
    simp [create_tag_route, hA, create_tag_model, insertTagRow, hNA]
  have hB1 : userById { db with tags := db.tags ++ [⟨db.nextTagId, A, N⟩],
                                nextTagId := db.nextTagId + 1 } B = some uB := hB
  have h2 : create_tag_route { db with tags := db.tags ++ [⟨db.nextTagId, A, N⟩],
                                       nextTagId := db.nextTagId + 1 } B N =
      (.ok 200 N, { db with tags := db.tags ++ [⟨db.nextTagId, A, N⟩,
                                                ⟨db.nextTagId + 1, B, N⟩],
                            nextTagId := db.nextTagId + 1 + 1 }) := by
    simp [create_tag_route, hB1, create_tag_model, insertTagRow, List.any_append,
      hNB, hABf]
  have hA2 : userById { db with tags := db.tags ++ [⟨db.nextTagId, A, N⟩,
                                                    ⟨db.nextTagId + 1, B, N⟩],
                                nextTagId := db.nextTagId + 1 + 1 } A = some uA := hA
  have h3 : create_tag_route { db with tags := db.tags ++ [⟨db.nextTagId, A, N⟩,
                                                           ⟨db.nextTagId + 1, B, N⟩],
                                       nextTagId := db.nextTagId + 1 + 1 } A N =
      (.err 400 "Tag already exists",
       { db with tags := db.tags ++ [⟨db.nextTagId, A, N⟩, ⟨db.nextTagId + 1, B, N⟩],
                 nextTagId := db.nextTagId + 1 + 1 }) := by
    simp [create_tag_route, hA2, create_tag_model, insertTagRow, List.any_append, hNA]
  rw [h1]
  rw [h2]
  rw [h3]
  exact ⟨rfl, rfl, rfl, rfl⟩

/-- Witness for c6_tag_name_unique_per_user on c6DB with users 1 and 2 and
tag name work. -/
theorem c6_tag_name_unique_per_user_witness :
    (create_tag_route c6DB 1 "work").1 = .ok 200 "work" ∧
    (create_tag_route (create_tag_route c6DB 1 "work").2 2 "work").1 = .ok 200 "work" ∧
    create_tag_route
        (create_tag_route (create_tag_route c6DB 1 "work").2 2 "work").2 1 "work" =
      (.err 400 "Tag already exists",
       (create_tag_route (create_tag_route c6DB 1 "work").2 2 "work").2) ∧
    (create_tag_route (create_tag_route c6DB 1 "work").2 2 "work").2.tags =
      c6DB.tags ++ [⟨c6DB.nextTagId, 1, "work"⟩, ⟨c6DB.nextTagId + 1, 2, "work"⟩] :=
  c6_tag_name_unique_per_user c6DB 1 2 "work"
    ⟨1, "a@example.com", "A", 0⟩ ⟨2, "b@example.com", "B", 0⟩
    (by rfl) (by rfl) (by decide) (by rfl) (by rfl)

/-- Claim C7: with tag T and item I existing and the pair absent, the link
route succeeds and appends exactly the (item id, tag id) row; linking the
same pair again answers 400 Item already exists leaving the association set
unchanged; unlinking restores the original store, after which relinking
succeeds again. -/
theorem c7_link_conflict_unlink_relink (db : DB) (tid iid : Nat)
    (tg : TagRow) (it : ItemRow)
    (hT : tagById db tid = some tg) (hI : itemById db iid = some it)
    (hAbs : linkMem db.links it.id tg.id = false) :
    link_tag_item db tid iid =
      (.ok 200 (it, itemTagsOf { db with links := db.links ++ [(it.id, tg.id)] } it),
       { db with links := db.links ++ [(it.id, tg.id)] }) ∧
    link_tag_item { db with links := db.links ++ [(it.id, tg.id)] } tid iid =
      (.err 400 "Item already exists",
       { db with links := db.links ++ [(it.id, tg.id)] }) ∧
    (unlink_tag_item { db with links := db.links ++ [(it.id, tg.id)] } tid iid).2 = db ∧
    link_tag_item
        ((unlink_tag_item { db with links := db.links ++ [(it.id, tg.id)] } tid iid).2)
        tid iid =
      (.ok 200 (it, itemTagsOf { db with links := db.links ++ [(it.id, tg.id)] } it),
       { db with links := db.links ++ [(it.id, tg.id)] }) := by
  have hT1 : tagById { db with links := db.links ++ [(it.id, tg.id)] } tid = some tg := hT
  have hI1 : itemById { db with links := db.links ++ [(it.id, tg.id)] } iid = some it := hI
  have hdup : linkMem (db.links ++ [(it.id, tg.id)]) it.id tg.id = true := by
    simp [linkMem, List.any_append]
  have h1 : link_tag_item db tid iid =
      (.ok 200 (it, itemTagsOf { db with links := db.links ++ [(it.id, tg.id)] } it),
       { db with links := db.links ++ [(it.id, tg.id)] }) := by
    simp [link_tag_item, hT, hI, add_tag_to_item, hAbs, hI1]
  have h2 : link_tag_item { db with links := db.links ++ [(it.id, tg.id)] } tid iid =
      (.err 400 "Item already exists",
       { db with links := db.links ++ [(it.id, tg.id)] }) := by
    simp [link_tag_item, hT1, hI1, add_tag_to_item, hdup]
  have hrm : remove_tag_from_item { db with links := db.links ++ [(it.id, tg.id)] } it tg
      = db := by
    have hfl : (db.links ++ [(it.id, tg.id)]).filter
        (fun l => !(l.1 == it.id && l.2 == tg.id)) = db.links := by
      rw [List.filter_append, filter_not_pair_eq_self db.links it.id tg.id hAbs]
      simp
    simp only [remove_tag_from_item]
    rw [hfl]
  have h3 : (unlink_tag_item { db with links := db.links ++ [(it.id, tg.id)] } tid iid).2
      = db := by
    simp [unlink_tag_item, hT1, hI1, hrm, hI]
  refine ⟨h1, h2, h3, ?_⟩
  rw [h3]
  exact h1

/-- Witness for c7_link_conflict_unlink_relink on c7DB (tag 1, item 1). -/
theorem c7_link_conflict_unlink_relink_witness :
    link_tag_item c7DB 1 1 =
      (.ok 200 (⟨1, 1, "t", "book", "reading", "high", none, 0, none⟩,
                itemTagsOf c7DBL ⟨1, 1, "t", "book", "reading", "high", none, 0, none⟩),
       c7DBL) ∧
    link_tag_item c7DBL 1 1 = (.err 400 "Item already exists", c7DBL) ∧
    (unlink_tag_item c7DBL 1 1).2 = c7DB ∧
    link_tag_item ((unlink_tag_item c7DBL 1 1).2) 1 1 =
      (.ok 200 (⟨1, 1, "t", "book", "reading", "high", none, 0, none⟩,
                itemTagsOf c7DBL ⟨1, 1, "t", "book", "reading", "high", none, 0, none⟩),
       c7DBL) :=
  c7_link_conflict_unlink_relink c7DB 1 1 ⟨1, 1, "n"⟩
    ⟨1, 1, "t", "book", "reading", "high", none, 0, none⟩ (by rfl) (by rfl) (by rfl)

/-- Totality of the nullable-column comparison. -/
theorem optNatLe_total (a b : Option Nat) : optNatLe a b = true ∨ optNatLe b a = true := by
  cases a with
  | none => exact Or.inl rfl
  | some x =>
    cases b with
    | none => exact Or.inr rfl
    | some y =>
      rcases Nat.le_total x y with h | h
      · exact Or.inl (by simp [optNatLe, h])
      · exact Or.inr (by simp [optNatLe, h])

/-- Transitivity of the nullable-column comparison. -/
theorem optNatLe_trans (a b c : Option Nat) (h1 : optNatLe a b = true)
    (h2 : optNatLe b c = true) : optNatLe a c = true := by
  cases a with
  | none => rfl
  | some x =>
    cases b with
    | none => simp [optNatLe] at h1
    | some y =>
      cases c with
      | none => simp [optNatLe] at h2
      | some z =>
        simp only [optNatLe, decide_eq_true_eq] at h1 h2 ⊢
        omega

/-- Totality of the BINARY text comparison. -/
theorem natListLe_total : ∀ a b : List Nat, natListLe a b = true ∨ natListLe b a = true
  | [], _ => Or.inl rfl
  | _ :: _, [] => Or.inr rfl
  | a :: as, b :: bs => by
    rcases Nat.lt_trichotomy a b with h | h | h
    · exact Or.inl (by simp [natListLe, h])
    · subst h
      rcases natListLe_total as bs with ih | ih
      · exact Or.inl (by simp [natListLe, ih])
      · exact Or.inr (by simp [natListLe, ih])
    · exact Or.inr (by simp [natListLe, h])

/-- Transitivity of the BINARY text comparison. -/
theorem natListLe_trans : ∀ a b c : List Nat, natListLe a b = true →
    natListLe b c = true → natListLe a c = true
  | [], _, _, _, _ => rfl
  | _ :: _, [], _, h, _ => by simp [natListLe] at h
  | _ :: _, _ :: _, [], _, h => by simp [natListLe] at h
  | a :: as, b :: bs, c :: cs, h1, h2 => by
    simp only [natListLe, Bool.or_eq_true, Bool.and_eq_true, decide_eq_true_eq,
      beq_iff_eq] at h1 h2 ⊢
    rcases h1 with h1 | ⟨rfl, h1⟩
    · rcases h2 with h2 | ⟨rfl, h2⟩
      · exact Or.inl (Nat.lt_trans h1 h2)
      · exact Or.inl h1
    · rcases h2 with h2 | ⟨rfl, h2⟩
      · exact Or.inl h2
      · exact Or.inr ⟨rfl, natListLe_trans as bs cs h1 h2⟩

/-- Every column bound by sort_col_map yields a total comparison. -/
theorem itemColLe_total (sf : String) (a b : ItemRow) :
    itemColLe sf a b = true ∨ itemColLe sf b a = true := by
  unfold itemColLe
  split_ifs
  · rcases Nat.le_total a.created_at b.created_at with h | h
    · exact Or.inl (by simp [h])
    · exact Or.inr (by simp [h])
  · exact optNatLe_total _ _
  · exact natListLe_total _ _
  · rcases Nat.le_total a.created_at b.created_at with h | h
    · exact Or.inl (by simp [h])
    · exact Or.inr (by simp [h])

/-- Every column bound by sort_col_map yields a transitive comparison. -/
theorem itemColLe_trans (sf : String) (a b c : ItemRow)
    (h1 : itemColLe sf a b = true) (h2 : itemColLe sf b c = true) :
    itemColLe sf a c = true := by
  unfold itemColLe at h1 h2 ⊢
  split_ifs at h1 h2 ⊢
  · simp only [decide_eq_true_eq] at h1 h2 ⊢
    omega
  · exact optNatLe_trans _ _ _ h1 h2
  · exact natListLe_trans _ _ _ h1 h2
  · simp only [decide_eq_true_eq] at h1 h2 ⊢
    omega

/-- The ORDER BY comparison (either direction) is total. -/
theorem itemOrderLe_total (sf so : String) (a b : ItemRow) :
    itemOrderLe sf so a b = true ∨ itemOrderLe sf so b a = true := by
  unfold itemOrderLe
  split_ifs
  · rcases itemColLe_total sf b a with h | h
    · exact Or.inl h
    · exact Or.inr h
  · exact itemColLe_total sf a b

/-- The ORDER BY comparison (either direction) is transitive. -/
theorem itemOrderLe_trans (sf so : String) (a b c : ItemRow)
    (h1 : itemOrderLe sf so a b = true) (h2 : itemOrderLe sf so b c = true) :
    itemOrderLe sf so a c = true := by
  unfold itemOrderLe at h1 h2 ⊢
  split_ifs at h1 h2 ⊢
  · exact itemColLe_trans sf c b a h2 h1
  · exact itemColLe_trans sf a b c h1 h2

/-- The items of a search result are the windowed sorted rows. -/
theorem map_fst_get_filtered_items (db : DB) (p : SearchParams) :
    (get_filtered_items db p).map Prod.fst =
      sqlWindow p.limit p.offset (searchSorted db p) := by
  simp only [get_filtered_items, List.map_map]
  have h : (Prod.fst ∘ fun it : ItemRow => (it, itemTagsOf db it)) = id := rfl
  rw [h, List.map_id]

/-- Claim C3: the search orders the matching rows by the column bound to
sort_field (created_at, updated_at, priority, anything else falling back to
created_at), descending exactly when sort_order lowercased equals desc, then
applies OFFSET followed by LIMIT; and on five items with strictly increasing
creation timestamps, defaults with limit 2 and offset 1 return the 2nd and
3rd most recent items in that order. -/
theorem c3_sort_order_pagination :
    (∀ (db : DB) (p : SearchParams), 0 ≤ p.limit →
      (get_filtered_items db p).map Prod.fst =
        ((searchSorted db p).drop p.offset.toNat).take p.limit.toNat ∧
      List.Sorted (fun a b => itemOrderLe p.sort_field p.sort_order a b = true)
        ((get_filtered_items db p).map Prod.fst)) ∧
    (∀ a b : ItemRow,
      itemColLe "created_at" a b = decide (a.created_at ≤ b.created_at) ∧
      itemColLe "updated_at" a b = optNatLe a.updated_at b.updated_at ∧
      itemColLe "priority" a b = natListLe (strCodes a.priority) (strCodes b.priority)) ∧
    (∀ sf : String, sf ≠ "created_at" → sf ≠ "updated_at" → sf ≠ "priority" →
      ∀ a b : ItemRow, itemColLe sf a b = decide (a.created_at ≤ b.created_at)) ∧
    (∀ (sf so : String) (a b : ItemRow),
      itemOrderLe sf so a b =
        if sortOrderIsDesc so then itemColLe sf b a else itemColLe sf a b) ∧
    (get_filtered_items fiveDB c3Params).map (fun x => x.1.id) = [4, 3] := by
  refine ⟨?_, ?_, ?_, fun sf so a b => rfl, by decide⟩
  · intro db p hlim
    have hwin : (get_filtered_items db p).map Prod.fst =
        ((searchSorted db p).drop p.offset.toNat).take p.limit.toNat := by
      rw [map_fst_get_filtered_items]
      unfold sqlWindow
      rw [if_neg (by omega)]
    refine ⟨hwin, ?_⟩
    rw [hwin]
    haveI : IsTotal ItemRow (fun a b => itemOrderLe p.sort_field p.sort_order a b = true) :=
      ⟨fun a b => itemOrderLe_total p.sort_field p.sort_order a b⟩
    haveI : IsTrans ItemRow (fun a b => itemOrderLe p.sort_field p.sort_order a b = true) :=
      ⟨fun a b c => itemOrderLe_trans p.sort_field p.sort_order a b c⟩
    have hs : List.Sorted (fun a b => itemOrderLe p.sort_field p.sort_order a b = true)
        (searchSorted db p) :=
      List.sorted_insertionSort _ _
    exact hs.sublist ((List.take_sublist _ _).trans (List.drop_sublist _ _))
  · intro a b
    refine ⟨rfl, ?_, ?_⟩
    · simp [itemColLe]
    · simp [itemColLe]
  · intro sf h1 h2 h3 a b
    unfold itemColLe
    rw [if_neg (by simp [h1]), if_neg (by simp [h2]), if_neg (by simp [h3])]

/-- Witness for c3_sort_order_pagination at fiveDB with limit 2, offset 1. -/
theorem c3_sort_order_pagination_witness :
    (get_filtered_items fiveDB c3Params).map Prod.fst =
      ((searchSorted fiveDB c3Params).drop c3Params.offset.toNat).take c3Params.limit.toNat ∧
    List.Sorted (fun a b => itemOrderLe c3Params.sort_field c3Params.sort_order a b = true)
      ((get_filtered_items fiveDB c3Params).map Prod.fst) :=
  c3_sort_order_pagination.1 fiveDB c3Params (by decide)

/-- Claim C4: with a non-empty tag_names list as the only filter, no offset
and a limit covering the matches, the search returns exactly the items
having at least one tag named in the list (any-match), each with its full
tag list, without duplicates; the fixture graph of testable property 7
returns items 3 and 1 with their complete tag lists; and when tag_names is
absent or the empty list no tag filter is applied (Python truthiness makes
both fall into the no-join branch): the matching predicate and the whole
search coincide with the tag_names-absent search, and with no other filter
active every item — tagged or not — matches. -/
theorem c4_tag_filter_any_match (db : DB) (p : SearchParams) (names : List String)
    (hstat : p.status = none) (hkind : p.kind = none) (hprio : p.priority = none)
    (htitle : p.title_substring = none) (hfrom : p.created_from = none)
    (hto : p.created_to = none) (htags : p.tag_names = some names) (hne : names ≠ [])
    (hoff : p.offset = 0) (hlim0 : 0 ≤ p.limit)
    (hcover : (searchMatching db p).length ≤ p.limit.toNat) :
    (∀ it : ItemRow, it ∈ (get_filtered_items db p).map Prod.fst ↔
      (it ∈ db.items ∧ hasAnyTagNamed db names it = true)) ∧
    (∀ x ∈ get_filtered_items db p, x.2 = itemTagsOf db x.1) ∧
    ((get_filtered_items db p).map Prod.fst).Nodup ∧
    (get_filtered_items c4DB c4Params).map (fun x => (x.1.id, x.2.map (fun tg => tg.name)))
      = [(3, ["personal"]), (1, ["urgent", "work"])] ∧
    (∀ (q : SearchParams) (it : ItemRow), q.tag_names = none ∨ q.tag_names = some [] →
      itemMatches db q it = itemMatches db { q with tag_names := none } it) ∧
    (∀ q : SearchParams, q.tag_names = none ∨ q.tag_names = some [] →
      get_filtered_items db q = get_filtered_items db { q with tag_names := none }) ∧
    (∀ (q : SearchParams) (it : ItemRow), q.status = none → q.kind = none →
      q.priority = none → q.title_substring = none → q.created_from = none →
      q.created_to = none → q.tag_names = none ∨ q.tag_names = some [] →
      itemMatches db q it = true) := by
  have hni : names.isEmpty = false := by
    cases names with
    | nil => exact absurd rfl hne
    | cons a l => rfl
  have hmatch : ∀ it : ItemRow, itemMatches db p it = hasAnyTagNamed db names it := by
    intro it
    simp [itemMatches, hstat, hkind, hprio, htitle, hfrom, hto, htags,
      truthyStr, truthyList, hni]
  have hperm : List.Perm (searchSorted db p) (searchMatching db p) :=
    List.perm_insertionSort _ _
  have hlen : (searchSorted db p).length = (searchMatching db p).length :=
    hperm.length_eq
  have hwin : (get_filtered_items db p).map Prod.fst = searchSorted db p := by
    rw [map_fst_get_filtered_items]
    unfold sqlWindow
    rw [if_neg (by omega)]
    rw [hoff]
    simp only [Int.toNat_zero, List.drop_zero]
    exact List.take_of_length_le (by omega)
  have hnofilter : ∀ (q : SearchParams) (it : ItemRow),
      q.tag_names = none ∨ q.tag_names = some [] →
      itemMatches db q it = itemMatches db { q with tag_names := none } it := by
    intro q it hq
    rcases hq with hq | hq <;> simp [itemMatches, truthyList, hq]
  refine ⟨?_, ?_, ?_, by decide, hnofilter, ?_, ?_⟩
  · intro it
    rw [hwin, hperm.mem_iff]
    unfold searchMatching
    rw [List.mem_dedup, List.mem_filter]
    rw [hmatch it]
  · intro x hx
    rcases List.mem_map.mp (by simpa [get_filtered_items] using hx) with ⟨it, hmem, hx2⟩
    rw [← hx2]
  · rw [hwin]
    exact hperm.symm.nodup (List.nodup_dedup _)
  · intro q hq
    have hfun : itemMatches db q = itemMatches db { q with tag_names := none } :=
      funext (fun it => hnofilter q it hq)
    unfold get_filtered_items searchSorted searchMatching
    rw [hfun]
  · intro q it h1 h2 h3 h4 h5 h6 h7
    rcases h7 with h7 | h7 <;>
      simp [itemMatches, truthyStr, truthyList, h1, h2, h3, h4, h5, h6, h7]

/-- Witness for c4_tag_filter_any_match on the fixture c4DB, also exercising
the absent/empty tag_names conjuncts at tag_names = some []. -/
theorem c4_tag_filter_any_match_witness :
    ((⟨1, 1, "i1", "book", "reading", "high", none, 1, none⟩ : ItemRow) ∈
        (get_filtered_items c4DB c4Params).map Prod.fst ↔
      ((⟨1, 1, "i1", "book", "reading", "high", none, 1, none⟩ : ItemRow) ∈ c4DB.items ∧
        hasAnyTagNamed c4DB ["urgent", "personal"]
          ⟨1, 1, "i1", "book", "reading", "high", none, 1, none⟩ = true)) ∧
    ((get_filtered_items c4DB c4Params).map Prod.fst).Nodup ∧
    get_filtered_items c4DB { tag_names := some [] } =
      get_filtered_items c4DB { tag_names := none } ∧
    itemMatches c4DB { tag_names := some [] }
      ⟨1, 1, "i1", "book", "reading", "high", none, 1, none⟩ = true := by
  have h := c4_tag_filter_any_match c4DB c4Params ["urgent", "personal"]
    rfl rfl rfl rfl rfl rfl rfl (by decide) rfl (by decide) (by decide)
  exact ⟨h.1 ⟨1, 1, "i1", "book", "reading", "high", none, 1, none⟩, h.2.2.1,
    h.2.2.2.2.2.1 { tag_names := some [] } (Or.inr rfl),
    h.2.2.2.2.2.2 { tag_names := some [] }
      ⟨1, 1, "i1", "book", "reading", "high", none, 1, none⟩
      rfl rfl rfl rfl rfl rfl (Or.inr rfl)⟩

/-- The suffixes of cs are exactly its drops. -/
theorem mem_suffixesOf : ∀ (cs t : List Nat), t ∈ suffixesOf cs ↔ ∃ n, cs.drop n = t
  | [], t => by
    simp only [suffixesOf, List.mem_singleton]
    constructor
    · rintro rfl
      exact ⟨0, rfl⟩
    · rintro ⟨n, h⟩
      rw [List.drop_nil] at h
      exact h.symm
  | c :: cs, t => by
    simp only [suffixesOf, List.mem_cons]
    constructor
    · rintro (rfl | ht)
      · exact ⟨0, rfl⟩
      · rcases (mem_suffixesOf cs t).mp ht with ⟨n, hn⟩
        exact ⟨n + 1, hn⟩
    · rintro ⟨n, hn⟩
      cases n with
      | zero => exact Or.inl hn.symm
      | succ m => exact Or.inr ((mem_suffixesOf cs t).mpr ⟨m, hn⟩)

/-- A leading percent wildcard matches exactly when some suffix of the text
matches the rest of the pattern. -/
theorem likeMatch_pct (ps cs : List Nat) :
    likeMatch (37 :: ps) cs = true ↔ ∃ n, likeMatch ps (cs.drop n) = true := by
  have he : likeMatch (37 :: ps) cs = (suffixesOf cs).any (fun t => likeMatch ps t) := by
    simp [likeMatch]
  rw [he, List.any_eq_true]
  constructor
  · rintro ⟨t, ht, hm⟩
    rcases (mem_suffixesOf cs t).mp ht with ⟨n, hn⟩
    exact ⟨n, by rw [hn]; exact hm⟩
  · rintro ⟨n, hm⟩
    exact ⟨cs.drop n, (mem_suffixesOf cs _).mpr ⟨n, rfl⟩, hm⟩

/-- A pattern consisting of one percent matches everything. -/
theorem likeMatch_pct_nil (cs : List Nat) : likeMatch [37] cs = true := by
  rw [likeMatch_pct]
  exact ⟨cs.length, by rw [List.drop_length]; rfl⟩

/-- A wildcard-free pattern segment consumes exactly itself from the front
of the text. -/
theorem likeMatch_literal : ∀ (s ps cs : List Nat),
    (∀ n ∈ s, n ≠ 37 ∧ n ≠ 95) →
    (likeMatch (s ++ ps) cs = true ↔ ∃ d, cs = s ++ d ∧ likeMatch ps d = true)
  | [], ps, cs, _ => by simp
  | a :: s, ps, [], h => by
    have ha := h a (by simp)
    have h37 : (a == 37) = false := by simp [ha.1]
    simp only [List.cons_append, likeMatch, h37, Bool.false_eq_true, if_false]
    simp
  | a :: s, ps, c :: cs, h => by
    have ha := h a (by simp)
    have ih := likeMatch_literal s ps cs (fun n hn => h n (List.mem_cons_of_mem a hn))
    have h37 : (a == 37) = false := by simp [ha.1]
    have h95 : (a == 95) = false := by simp [ha.2]
    simp only [List.cons_append, likeMatch, h37, Bool.false_eq_true, if_false, h95,
      Bool.false_or, Bool.and_eq_true, beq_iff_eq]
    constructor
    · rintro ⟨rfl, hm⟩
      rcases ih.mp hm with ⟨d, rfl, hd⟩
      exact ⟨d, rfl, hd⟩
    · rintro ⟨d, hcd, hd⟩
      injection hcd with h1 h2
      exact ⟨h1.symm, ih.mpr ⟨d, h2, hd⟩⟩

/-- headMatches recognizes exactly the initial segments. -/
theorem headMatches_iff : ∀ s t : List Nat, headMatches s t = true ↔ ∃ d, t = s ++ d
  | [], t => by simp [headMatches]
  | a :: s, [] => by simp [headMatches]
  | a :: s, c :: t => by
    simp only [headMatches, Bool.and_eq_true, beq_iff_eq, headMatches_iff s t]
    constructor
    · rintro ⟨rfl, d, rfl⟩
      exact ⟨d, rfl⟩
    · rintro ⟨d, hd⟩
      injection hd with h1 h2
      exact ⟨h1.symm, d, h2⟩

/-- containsSub recognizes exactly the contiguous occurrences. -/
theorem containsSub_iff : ∀ s cs : List Nat,
    containsSub s cs = true ↔ ∃ n d, cs.drop n = s ++ d
  | s, [] => by
    simp only [containsSub, List.isEmpty_iff]
    constructor
    · rintro rfl
      exact ⟨0, [], rfl⟩
    · rintro ⟨n, d, h⟩
      rw [List.drop_nil] at h
      rcases List.append_eq_nil.mp h.symm with ⟨rfl, rfl⟩
      rfl
  | s, c :: cs => by
    simp only [containsSub, Bool.or_eq_true, headMatches_iff, containsSub_iff s cs]
    constructor
    · rintro (⟨d, hd⟩ | ⟨n, d, hd⟩)
      · exact ⟨0, d, hd⟩
      · exact ⟨n + 1, d, hd⟩
    · rintro ⟨n, d, hd⟩
      cases n with
      | zero => exact Or.inl ⟨d, hd⟩
      | succ m => exact Or.inr ⟨m, d, hd⟩

/-- The percent-wrapped pattern of a wildcard-free substring matches exactly
the texts containing the substring. -/
theorem likeMatch_wrapped (s cs : List Nat) (h : ∀ n ∈ s, n ≠ 37 ∧ n ≠ 95) :
    likeMatch (37 :: (s ++ [37])) cs = true ↔ containsSub s cs = true := by
  rw [likeMatch_pct, containsSub_iff]
  constructor
  · rintro ⟨n, hm⟩
    rcases (likeMatch_literal s [37] (cs.drop n) h).mp hm with ⟨d, hd, _⟩
    exact ⟨n, d, hd⟩
  · rintro ⟨n, d, hd⟩
    exact ⟨n, (likeMatch_literal s [37] (cs.drop n) h).mpr ⟨d, hd, likeMatch_pct_nil d⟩⟩

/-- ASCII lowering maps no codepoint onto a LIKE wildcard, so a
wildcard-free substring stays wildcard-free after lower(). -/
theorem noWildcards_lowerCodes (sub : String) (h : noWildcards sub = true) :
    ∀ n ∈ lowerCodes (strCodes sub), n ≠ 37 ∧ n ≠ 95 := by
  intro n hn
  rcases List.mem_map.mp hn with ⟨m, hm, rfl⟩
  have hm2 := List.all_eq_true.mp h m hm
  simp only [Bool.and_eq_true, Bool.not_eq_eq_eq_not, Bool.not_true, beq_eq_false_iff_ne,
    ne_eq] at hm2
  unfold lowerCode
  split_ifs with hr
  · omega
  · exact hm2

/-- The codepoints of the wrapped lowered pattern. -/
theorem lowerCodes_wrap (sub : String) :
    lowerCodes (strCodes ("%" ++ sub ++ "%")) =
      37 :: (lowerCodes (strCodes sub) ++ [37]) := by
  have hd : ("%" ++ sub ++ "%").data = '%' :: (sub.data ++ ['%']) := by
    rw [String.data_append, String.data_append]
    rfl
  unfold lowerCodes strCodes
  rw [hd]
  simp [lowerCode]

/-- Claim C9 (counterexample): the underscore in the substring acts as a
LIKE wildcard, so the search with title_substring a_c returns the item
titled abc although abc does not contain a_c ignoring case — the claimed
equivalence between passing the filter and substring containment fails. -/
theorem c9_title_filter_counterexample :
    (get_filtered_items c9badDB { title_substring := some "a_c" }).map (fun x => x.1.id)
      = [1] ∧
    titleFilterPasses "a_c" "abc" = true ∧
    containsIgnoreCase "a_c" "abc" = false := by
  decide

/-- Claim C9 as amended: the title filter is LIKE matching of the lowered
title against the percent-wrapped lowered substring, in which percent and
underscore inside the substring act as wildcards; whenever the substring
contains neither wildcard, an item passes the filter exactly when its title
contains the substring ignoring ASCII case; in particular the item titled
Finish Report is returned both for report and for FINISH. -/
theorem c9_title_filter_amended :
    (∀ sub title : String, noWildcards sub = true →
      (titleFilterPasses sub title = true ↔ containsIgnoreCase sub title = true)) ∧
    (get_filtered_items c9DB { title_substring := some "report" }).map (fun x => x.1.id)
      = [1] ∧
    (get_filtered_items c9DB { title_substring := some "FINISH" }).map (fun x => x.1.id)
      = [1] := by
  refine ⟨?_, by decide, by decide⟩
  intro sub title h
  unfold titleFilterPasses containsIgnoreCase
  rw [lowerCodes_wrap]
  exact likeMatch_wrapped _ _ (noWildcards_lowerCodes sub h)

/-- Witness for c9_title_filter_amended on the Finish Report example. -/
theorem c9_title_filter_amended_witness :
    titleFilterPasses "report" "Finish Report" = true ↔
      containsIgnoreCase "report" "Finish Report" = true :=
  c9_title_filter_amended.1 "report" "Finish Report" (by decide)

end TestBooks
